import Mathlib

/-!
# StyleSync wardrobe-aware recommendation pipeline — verification development

Shallow embedding of the TypeScript sources of the StyleSync app:

* `src/types.ts` — the enumerations and record types of the data model;
* `src/services/geminiService.ts` — `getAiClient`, `analyzeWardrobeItem`,
  `generateOutfitRecommendations`, `generateOutfitVisual`;
* `src/components/OutfitForm.tsx` — `handleSubmit`;
* `src/App.tsx` — the wardrobe-snapshot attachment in `handleGetRecommendations`;
* the `OutfitCard` component — `handleGenerateVisual`'s reference-item
  selection and the `ownedCount` computation.

The external Gemini SDK calls are modelled as an input parameter describing
the outcome of the awaited call (a thrown error, or a response value).
`JSON.parse` is a JavaScript builtin at the same external boundary; its
outcome on the response text is modelled by the `TextPayload` type (text
absent/empty, text unparseable, or the parsed JSON value).  JavaScript
exceptions become `Except String` values carrying the error message; the
`try`/`catch` blocks of the source become explicit matches on that `Except`.
-/

namespace StyleSync

/-! ## JSON runtime values

`JSON.parse` can only produce these shapes.  A missing object property is
represented as `Option.none` at the access site (JavaScript `undefined`). -/

inductive Json where
  | null
  | bool (b : Bool)
  | num (n : Int)
  | str (s : String)
  | arr (elems : List Json)
  | obj (fields : List (String × Json))

/-- JavaScript property access `j.k` on a parsed JSON value: `none` models
`undefined`.  For duplicate keys `JSON.parse` keeps the last one. -/
def jsGet (j : Json) (k : String) : Option Json :=
  match j with
  | .obj fields => ((fields.reverse).find? (fun f => f.1 == k)).map (fun f => f.2)
  | _ => none

/-- JavaScript truthiness of a value that may be `undefined` (`none`). -/
def jsTruthy : Option Json → Bool
  | none => false
  | some .null => false
  | some (.bool b) => b
  | some (.num n) => n != 0
  | some (.str s) => s != ""
  | some (.arr _) => true
  | some (.obj _) => true

/-- JavaScript strict equality `v === s` between a possibly-`undefined`
value and a string literal. -/
def jsStrEq (v : Option Json) (s : String) : Bool :=
  match v with
  | some (.str t) => t == s
  | _ => false

/-! ## Data model (`src/types.ts`) -/

inductive Occasion where
  | CASUAL | WORK | DATE | PARTY | GYM | FORMAL
deriving DecidableEq

/-- The runtime string value of each `Occasion` enum member. -/
def Occasion.val : Occasion → String
  | .CASUAL => "休閒"
  | .WORK => "工作/商務"
  | .DATE => "約會"
  | .PARTY => "派對"
  | .GYM => "運動/健身"
  | .FORMAL => "正式場合"

inductive WeatherType where
  | SUNNY | CLOUDY | RAINY | SNOWY | COLD | HOT
deriving DecidableEq

def WeatherType.val : WeatherType → String
  | .SUNNY => "晴天"
  | .CLOUDY => "多雲"
  | .RAINY => "雨天"
  | .SNOWY => "雪天"
  | .COLD => "寒冷"
  | .HOT => "炎熱"

inductive Gender where
  | FEMALE | MALE | UNISEX
deriving DecidableEq

def Gender.val : Gender → String
  | .FEMALE => "女性"
  | .MALE => "男性"
  | .UNISEX => "中性/通用"

inductive ClothingCategory where
  | TOP | BOTTOM | SHOES | OUTERWEAR | ACCESSORY | ONE_PIECE
deriving DecidableEq

def ClothingCategory.val : ClothingCategory → String
  | .TOP => "上衣"
  | .BOTTOM => "下身"
  | .SHOES => "鞋履"
  | .OUTERWEAR => "外套"
  | .ACCESSORY => "配件"
  | .ONE_PIECE => "連身裝"

/-- `Object.values(ClothingCategory)` in declaration order. -/
def allCategories : List ClothingCategory :=
  [.TOP, .BOTTOM, .SHOES, .OUTERWEAR, .ACCESSORY, .ONE_PIECE]

structure WardrobeItem where
  id : String
  imageData : String
  mimeType : String
  category : ClothingCategory
  description : String
  tags : List String
  createdAt : Nat
deriving DecidableEq

structure OutfitItem where
  name : String
  color : String
  type : String
  wardrobeItemId : Option String
deriving DecidableEq

structure UserPreferences where
  occasion : Occasion
  weather : WeatherType
  styleParams : String
  gender : Gender
  useWardrobe : Bool
  wardrobeItems : Option (List WardrobeItem)
deriving DecidableEq

/-! ## External capability boundary

The awaited `ai.models.generateContent(...)` call either throws (network
failure, SDK error, ...) with some message, or resolves to a response whose
`text` field is then consumed through `JSON.parse`. -/

/-- Outcome of reading and `JSON.parse`-ing `response.text`. -/
inductive TextPayload where
  /-- `response.text` is `undefined` or `""` (both falsy). -/
  | missing
  /-- `response.text` is a non-empty string that `JSON.parse` rejects.
  A `SyntaxError` message is never the string `"API_KEY_MISSING"`. -/
  | unparseable
  /-- `response.text` is a non-empty string parsing to `j`. -/
  | value (j : Json)

/-- Outcome of an awaited text-generation capability call. -/
inductive CapResponse where
  | fail (msg : String)
  | reply (text : TextPayload)

/-- `getAiClient`'s key check: `process.env.API_KEY` must be truthy
(`if (envKey)`), i.e. present and non-empty; otherwise the function throws
`Error("API_KEY_MISSING")`. -/
def envKeyPresent : Option String → Bool
  | some s => s != ""
  | none => false

/-! ## `analyzeWardrobeItem` (`src/services/geminiService.ts`) -/

/-- `JSON.parse(response.text || '{}')`: falsy text falls back to the
literal `'{}'`, which parses to an empty object. -/
def analyzeParse : TextPayload → Except Unit Json
  | .missing => .ok (.obj [])
  | .unparseable => .error ()
  | .value j => .ok j

/-- The record the source returns on a successful analysis call.
`category` has the enum type because the source only ever assigns
`ClothingCategory.TOP` or a `find` result over `Object.values(ClothingCategory)`;
`description`/`tags` keep the raw JSON values the `||` defaults produce. -/
structure AnalysisRecord where
  category : ClothingCategory
  description : Json
  tags : Json

/-- The success branch of `analyzeWardrobeItem` after parsing:
category falls back to `TOP` unless `result.category` strictly equals one of
the enum values; `result.description || "未知單品"`; `result.tags || []`. -/
def analyzeSuccess (j : Json) : AnalysisRecord :=
  { category := (allCategories.find? (fun c => jsStrEq (jsGet j "category") c.val)).getD .TOP
  , description := if jsTruthy (jsGet j "description")
      then (jsGet j "description").getD .null else .str "未知單品"
  , tags := if jsTruthy (jsGet j "tags")
      then (jsGet j "tags").getD .null else .arr [] }

/-- The record built in the `catch` branch of `analyzeWardrobeItem`. -/
def degradedRecord : AnalysisRecord :=
  { category := .TOP, description := .str "已上傳單品", tags := .arr [] }

/-- `analyzeWardrobeItem`: try-block behaviour followed by the catch that
rethrows only when `error.message === "API_KEY_MISSING"` and otherwise
returns the degraded record. -/
def analyzeWardrobeItem (apiKey : Option String) (resp : CapResponse) :
    Except String AnalysisRecord :=
  let body : Except String AnalysisRecord :=
    if envKeyPresent apiKey then
      match resp with
      | .fail msg => .error msg
      | .reply t =>
        match analyzeParse t with
        | .error _ => .error "SyntaxError"
        | .ok j => .ok (analyzeSuccess j)
    else .error "API_KEY_MISSING"
  match body with
  | .ok r => .ok r
  | .error msg => if msg == "API_KEY_MISSING" then .error msg else .ok degradedRecord

/-! ## `generateOutfitRecommendations` (`src/services/geminiService.ts`) -/

/-- One line of the textual inventory:
`` `- ID: ${item.id}, 類別: ${item.category}, 描述: ${item.description}` ``. -/
def wardrobeInventoryLine (item : WardrobeItem) : String :=
  "- ID: " ++ item.id ++ ", 類別: " ++ item.category.val ++ ", 描述: " ++ item.description

/-- The `wardrobeContext` template string: empty unless
`prefs.useWardrobe && prefs.wardrobeItems && prefs.wardrobeItems.length > 0`. -/
def wardrobeContext (prefs : UserPreferences) : String :=
  if prefs.useWardrobe &&
      (match prefs.wardrobeItems with
        | some l => decide (0 < l.length)
        | none => false) then
    let itemsList := String.intercalate "\n"
      ((prefs.wardrobeItems.getD []).map wardrobeInventoryLine)
    "\n        使用者擁有數位衣櫥庫存。\n        請優先從庫存挑選。使用庫存時，務必在 items 的 wardrobeItemId 填入 ID。\n        若缺搭配單品，可建議通用單品。\n        \n        庫存:\n        " ++ itemsList ++ "\n        "
  else ""

/-- The full generation prompt template of `generateOutfitRecommendations`,
with `${prefs.gender}`, `${prefs.occasion}`, `${prefs.weather}`,
`${prefs.styleParams || '簡約質感'}` and `${wardrobeContext}` interpolated. -/
def buildPrompt (prefs : UserPreferences) : String :=
  "你是一位年輕潮流造型師（IG/Threads 風格）。\n    為一位" ++ prefs.gender.val ++
  "提供 **2 套** 穿搭建議。\n    \n    風格要求：\n    - 年輕、活潑、韓系/日系/CityBoy/Y2K。\n    - **文字極度精簡**：說明請在 15 字以內，理由請用一句話解決。不要廢話。\n    \n    情境：\n    - 場合：" ++
  prefs.occasion.val ++ "\n    - 天氣：" ++ prefs.weather.val ++ "\n    - 偏好：" ++
  (if prefs.styleParams != "" then prefs.styleParams else "簡約質感") ++
  "\n    \n    " ++ wardrobeContext prefs ++ "\n    "

/-- One element of the returned batch, i.e. the runtime object
`{...item, id: ` ``rec-${Date.now()}-${index}`` `, context: prefs}`.
The spread keys of the raw JSON element are kept in `raw`; the `id` and
`context` fields are written after the spread, so they override any
same-named key of `raw` — hence they are separate fields here. -/
structure RecResult where
  raw : Json
  id : String
  context : UserPreferences

/-- `` `rec-${ts}-${index}` `` for a (small integer) timestamp and index. -/
def mkRecId (ts i : Nat) : String :=
  "rec-" ++ Nat.repr ts ++ "-" ++ Nat.repr i

/-- `rawData.map((item, index) => ({...item, id: ..., context: prefs}))`.
`Date.now()` is invoked inside the callback, so it is modelled as a clock
read per element index (`clock i`). -/
def buildBatch (prefs : UserPreferences) (clock : Nat → Nat) :
    List Json → Nat → List RecResult
  | [], _ => []
  | x :: xs, i =>
    { raw := x, id := mkRecId (clock i) i, context := prefs } :: buildBatch prefs clock xs (i + 1)

/-- `generateOutfitRecommendations`.  The `catch` block rethrows every
error, so the try-block `Except` value is the final result.  Failure
messages: `getAiClient` throws `"API_KEY_MISSING"`; absent/empty text
throws `"無法生成建議"`; `JSON.parse` failure raises a `SyntaxError`; a
non-array parse result makes `rawData.map` raise a `TypeError`
(`"rawData.map is not a function"`). -/
def generateOutfitRecommendations (prefs : UserPreferences) (apiKey : Option String)
    (clock : Nat → Nat) (resp : CapResponse) : Except String (List RecResult) :=
  if envKeyPresent apiKey then
    match resp with
    | .fail msg => .error msg
    | .reply .missing => .error "無法生成建議"
    | .reply .unparseable => .error "SyntaxError"
    | .reply (.value (.arr xs)) => .ok (buildBatch prefs clock xs 0)
    | .reply (.value _) => .error "rawData.map is not a function"
  else .error "API_KEY_MISSING"

/-! ## `generateOutfitVisual` (`src/services/geminiService.ts`) -/

structure JInlineData where
  data : Option String
  mimeType : Option String
deriving DecidableEq

structure JPart where
  inlineData : Option JInlineData
deriving DecidableEq

structure JContent where
  parts : Option (List JPart)
deriving DecidableEq

structure JCandidate where
  content : JContent
deriving DecidableEq

/-- Outcome of the awaited image-generation capability call: a thrown
error, or a response carrying `candidates` (possibly `undefined`). -/
inductive VisualCapResponse where
  | fail (msg : String)
  | reply (candidates : Option (List JCandidate))
deriving DecidableEq

/-- `` `${part.inlineData.mimeType}` `` renders `undefined` as the string
`"undefined"` inside a template literal. -/
def mimeRepr : Option String → String
  | some m => m
  | none => "undefined"

/-- The `for (const part of ...parts)` loop: return the data URI of the
first part whose `inlineData` and `inlineData.data` are truthy. -/
def findImagePart : List JPart → Option String
  | [] => none
  | p :: ps =>
    match p.inlineData with
    | some d =>
      match d.data with
      | some s =>
        if s != "" then some ("data:" ++ mimeRepr d.mimeType ++ ";base64," ++ s)
        else findImagePart ps
      | none => findImagePart ps
    | none => findImagePart ps

/-- The try-block of `generateOutfitVisual`.  `candidates` that are an
empty array pass the truthiness test, but `candidates[0]` is then
`undefined` and reading `.content` throws a `TypeError`. -/
def generateOutfitVisualBody (apiKey : Option String) (resp : VisualCapResponse) :
    Except String (Option String) :=
  if envKeyPresent apiKey then
    match resp with
    | .fail msg => .error msg
    | .reply none => .ok none
    | .reply (some []) => .error "TypeError"
    | .reply (some (c :: _)) =>
      match c.content.parts with
      | none => .ok none
      | some parts => .ok (findImagePart parts)
  else .error "API_KEY_MISSING"

/-- `generateOutfitVisual`: the catch block turns every error into `null`.
The `description`, `context` and `referenceItems` arguments only shape the
prompt text sent to the capability (source lines 194–227) and do not
influence which value is returned. -/
def generateOutfitVisual (description : String) (context : UserPreferences)
    (referenceItems : List WardrobeItem) (apiKey : Option String)
    (resp : VisualCapResponse) : Option String :=
  match generateOutfitVisualBody apiKey resp with
  | .ok r => r
  | .error _ => none

/-- The image a capability reply yields on the source's success path:
nothing unless the first candidate exists and carries a part with truthy
inline data. -/
def imageOfCandidates : Option (List JCandidate) → Option String
  | none => none
  | some [] => none
  | some (c :: _) =>
    match c.content.parts with
    | none => none
    | some parts => findImagePart parts

/-! ## `OutfitCard` (reference-item selection and owned count) -/

/-- `w.id === item.wardrobeItemId`; comparing with `undefined` is `false`. -/
def wardrobeMatch (it : OutfitItem) (w : WardrobeItem) : Bool :=
  match it.wardrobeItemId with
  | some wid => w.id == wid
  | none => false

/-- `handleGenerateVisual`'s selection:
`recommendation.items.map(item => allWardrobeItems.find(w => w.id === item.wardrobeItemId)).filter(defined)`. -/
def usedWardrobeItems (items : List OutfitItem) (allItems : List WardrobeItem) :
    List WardrobeItem :=
  (items.map (fun it => allItems.find? (wardrobeMatch it))).filterMap id

/-- Truthiness of `item.wardrobeItemId` (a possibly-absent string). -/
def truthyId : Option String → Bool
  | some s => s != ""
  | none => false

/-- `recommendation.items.filter(i => i.wardrobeItemId).length`. -/
def ownedCount (items : List OutfitItem) : Nat :=
  (items.filter (fun i => truthyId i.wardrobeItemId)).length

/-! ## `OutfitForm.handleSubmit` and `App.handleGetRecommendations` -/

structure FormState where
  occasion : Occasion
  weather : WeatherType
  gender : Gender
  styleParams : String
  useWardrobe : Bool
deriving DecidableEq

/-- `OutfitForm.handleSubmit`: emits the form fields with
`useWardrobe: useWardrobe && hasWardrobeItems` and no wardrobe snapshot. -/
def handleSubmit (st : FormState) (hasWardrobeItems : Bool) : UserPreferences :=
  { occasion := st.occasion, weather := st.weather, gender := st.gender
  , styleParams := st.styleParams
  , useWardrobe := st.useWardrobe && hasWardrobeItems
  , wardrobeItems := none }

/-- The `hasWardrobeItems` prop `App` passes: `wardrobeItems.length > 0`. -/
def hasWardrobeItemsFlag (wardrobe : List WardrobeItem) : Bool :=
  decide (0 < wardrobe.length)

/-- `App.handleGetRecommendations`'s request assembly:
`{...prefs, wardrobeItems: prefs.useWardrobe ? currentItems : []}`. -/
def attachWardrobeData (prefs : UserPreferences) (currentItems : List WardrobeItem) :
    UserPreferences :=
  { prefs with wardrobeItems := some (if prefs.useWardrobe then currentItems else []) }

/-! ## The required response schema, following the spec's words

Used to compare the spec's validation requirement against the source's
actual behaviour (claim C1).  These definitions follow the spec (§4.3
step 3, §6), not the source. -/

def isJsonString : Json → Bool
  | .str _ => true
  | _ => false

/-- Follows the spec's words: an outfit item object with mandatory
`name`/`color`/`type` strings and an optional string id reference. -/
def specConformantOutfitItem (j : Json) : Bool :=
  match j with
  | .obj _ =>
    (match jsGet j "name" with | some v => isJsonString v | none => false) &&
    (match jsGet j "color" with | some v => isJsonString v | none => false) &&
    (match jsGet j "type" with | some v => isJsonString v | none => false) &&
    (match jsGet j "wardrobeItemId" with | some v => isJsonString v | none => true)
  | _ => false

/-- Follows the spec's words: a recommendation object with `title`, short
`description`, ordered outfit `items`, `reasoning` text and an ordered
color-token sequence. -/
def specConformantRecommendation (j : Json) : Bool :=
  match j with
  | .obj _ =>
    (match jsGet j "title" with | some v => isJsonString v | none => false) &&
    (match jsGet j "description" with | some v => isJsonString v | none => false) &&
    (match jsGet j "items" with
      | some (.arr xs) => xs.all specConformantOutfitItem
      | _ => false) &&
    (match jsGet j "reasoning" with | some v => isJsonString v | none => false) &&
    (match jsGet j "colorPalette" with
      | some (.arr xs) => xs.all isJsonString
      | _ => false)
  | _ => false

/-- Follows the spec's words: the top-level payload must be an ordered
sequence of schema-conformant recommendation objects. -/
def specSchemaConformant (j : Json) : Bool :=
  match j with
  | .arr xs => xs.all specConformantRecommendation
  | _ => false

/-! ## Decimal rendering of natural numbers

`Nat.repr` (the model of JavaScript's number-to-string conversion inside
`` `rec-${ts}-${i}` ``) is injective and produces no `'-'` character; both
facts feed the batch-unique-id theorem for C9. -/

/-- Structural (fuel-free) description of `Nat.toDigitsCore` base 10. -/
def decimalDigits (n : Nat) : List Char :=
  if h : n < 10 then [Nat.digitChar n]
  else decimalDigits (n / 10) ++ [Nat.digitChar (n % 10)]
decreasing_by exact Nat.div_lt_self (by omega) (by omega)

theorem decimalDigits_lt (n : Nat) (hn : n < 10) :
    decimalDigits n = [Nat.digitChar n] := by
  rw [decimalDigits]
  exact dif_pos hn

theorem decimalDigits_ge (n : Nat) (hn : ¬ n < 10) :
    decimalDigits n = decimalDigits (n / 10) ++ [Nat.digitChar (n % 10)] := by
  rw [decimalDigits]
  exact dif_neg hn

theorem toDigitsCore_eq_decimalDigits (f : Nat) :
    ∀ (n : Nat) (acc : List Char), n < f →
      Nat.toDigitsCore 10 f n acc = decimalDigits n ++ acc := by
  induction f with
  | zero => intro n acc h; omega
  | succ f ih =>
    intro n acc h
    show (if n / 10 = 0 then Nat.digitChar (n % 10) :: acc
          else Nat.toDigitsCore 10 f (n / 10) (Nat.digitChar (n % 10) :: acc)) =
         decimalDigits n ++ acc
    by_cases h10 : n / 10 = 0
    · have hn : n < 10 := by omega
      rw [if_pos h10, decimalDigits_lt n hn, Nat.mod_eq_of_lt hn]
      rfl
    · have hn : ¬ n < 10 := by omega
      have hdiv : n / 10 < f := by
        have h1 : n / 10 < n := Nat.div_lt_self (by omega) (by omega)
        omega
      rw [if_neg h10, ih (n / 10) _ hdiv, decimalDigits_ge n hn,
        List.append_assoc, List.singleton_append]

theorem repr_eq_decimalDigits (n : Nat) :
    Nat.repr n = (decimalDigits n).asString := by
  show (Nat.toDigitsCore 10 (n + 1) n []).asString = (decimalDigits n).asString
  rw [toDigitsCore_eq_decimalDigits (n + 1) n [] (Nat.lt_succ_self n), List.append_nil]

/-- Numeric value of a decimal digit character. -/
def digitVal (c : Char) : Nat := c.toNat - '0'.toNat

/-- Reads a digit string back into the number it denotes. -/
def evalDigits (l : List Char) : Nat :=
  l.foldl (fun a c => a * 10 + digitVal c) 0

theorem digitVal_digitChar (d : Nat) (h : d < 10) :
    digitVal (Nat.digitChar d) = d := by
  interval_cases d <;> rfl

theorem evalDigits_append_singleton (l : List Char) (c : Char) :
    evalDigits (l ++ [c]) = evalDigits l * 10 + digitVal c := by
  show (l ++ [c]).foldl (fun a c => a * 10 + digitVal c) 0 = _
  rw [List.foldl_append]
  rfl

theorem evalDigits_decimalDigits (n : Nat) :
    evalDigits (decimalDigits n) = n := by
  induction n using Nat.strong_induction_on with
  | _ n ih =>
    by_cases h : n < 10
    · rw [decimalDigits_lt n h]
      show 0 * 10 + digitVal (Nat.digitChar n) = n
      rw [digitVal_digitChar n h]
      omega
    · rw [decimalDigits_ge n h, evalDigits_append_singleton,
        ih (n / 10) (Nat.div_lt_self (by omega) (by omega)),
        digitVal_digitChar (n % 10) (Nat.mod_lt n (by omega))]
      omega

theorem decimalDigits_inj {m n : Nat} (h : decimalDigits m = decimalDigits n) :
    m = n := by
  have := congrArg evalDigits h
  rwa [evalDigits_decimalDigits, evalDigits_decimalDigits] at this

theorem nat_repr_inj {m n : Nat} (h : Nat.repr m = Nat.repr n) : m = n := by
  rw [repr_eq_decimalDigits, repr_eq_decimalDigits] at h
  exact decimalDigits_inj (List.asString_inj.mp h)

theorem digitChar_ne_dash (d : Nat) (h : d < 10) : Nat.digitChar d ≠ '-' := by
  interval_cases d <;> decide

theorem dash_not_mem_decimalDigits (n : Nat) : '-' ∉ decimalDigits n := by
  induction n using Nat.strong_induction_on with
  | _ n ih =>
    rw [decimalDigits]
    by_cases h : n < 10
    · rw [dif_pos h]
      simp only [List.mem_singleton]
      exact fun hc => digitChar_ne_dash n h hc.symm
    · rw [dif_neg h]
      have hdiv : n / 10 < n := Nat.div_lt_self (by omega) (by omega)
      intro hc
      rcases List.mem_append.mp hc with hm | hm
      · exact ih (n / 10) hdiv hm
      · exact digitChar_ne_dash (n % 10) (Nat.mod_lt n (by omega))
          (List.mem_singleton.mp hm).symm

theorem dash_not_mem_repr (n : Nat) : '-' ∉ (Nat.repr n).data := by
  rw [repr_eq_decimalDigits]
  exact dash_not_mem_decimalDigits n

/-- Splitting at a dash is unambiguous when the prefixes are dash-free. -/
theorem dashfree_append_inj :
    ∀ (a c b d : List Char), '-' ∉ a → '-' ∉ c →
      a ++ '-' :: b = c ++ '-' :: d → a = c ∧ b = d := by
  intro a
  induction a with
  | nil =>
    intro c b d _ hc h
    cases c with
    | nil => simpa using h
    | cons y ys =>
      simp only [List.nil_append, List.cons_append, List.cons.injEq] at h
      refine absurd ?_ hc
      rw [← h.1]
      exact List.mem_cons_self '-' ys
  | cons x xs ih =>
    intro c b d ha hc h
    cases c with
    | nil =>
      simp only [List.cons_append, List.nil_append, List.cons.injEq] at h
      refine absurd ?_ ha
      rw [h.1]
      exact List.mem_cons_self '-' xs
    | cons y ys =>
      simp only [List.cons_append, List.cons.injEq] at h
      obtain ⟨hxy, hrest⟩ := h
      have ha' : '-' ∉ xs := fun hm => ha (List.mem_cons_of_mem x hm)
      have hc' : '-' ∉ ys := fun hm => hc (List.mem_cons_of_mem y hm)
      obtain ⟨h1, h2⟩ := ih ys b d ha' hc' hrest
      exact ⟨by rw [hxy, h1], h2⟩

theorem string_data_append (s t : String) : (s ++ t).data = s.data ++ t.data := by
  cases s; cases t; rfl

/-- Two generated recommendation ids can only coincide when their ordinal
indices coincide, even if the two `Date.now()` reads differ. -/
theorem mkRecId_inj_idx {t1 t2 i j : Nat} (h : mkRecId t1 i = mkRecId t2 j) :
    i = j := by
  have hd := congrArg String.data h
  simp only [mkRecId, string_data_append, List.append_assoc] at hd
  have hd' : (Nat.repr t1).data ++ '-' :: (Nat.repr i).data =
      (Nat.repr t2).data ++ '-' :: (Nat.repr j).data := by
    simpa using hd
  obtain ⟨_, h2⟩ := dashfree_append_inj _ _ _ _ (dash_not_mem_repr t1)
    (dash_not_mem_repr t2) hd'
  exact nat_repr_inj (String.ext h2)

/-! ## Concrete fixtures for witnesses and counterexamples -/

/-- A minimal `UserPreferences` value (wardrobe unused). -/
def cPrefs : UserPreferences :=
  { occasion := .CASUAL, weather := .SUNNY, styleParams := "", gender := .UNISEX
  , useWardrobe := false, wardrobeItems := none }

/-- The spec's §8 scenario preferences: WORK / SUNNY / UNISEX, empty style,
wardrobe disabled, empty snapshot. -/
def scenarioPrefs : UserPreferences :=
  { occasion := .WORK, weather := .SUNNY, styleParams := "", gender := .UNISEX
  , useWardrobe := false, wardrobeItems := some [] }

/-- A form state with the wardrobe toggle switched on. -/
def st0 : FormState :=
  { occasion := .CASUAL, weather := .SUNNY, gender := .UNISEX
  , styleParams := "", useWardrobe := true }

/-- A concrete wardrobe item. -/
def sampleItem : WardrobeItem :=
  { id := "w1", imageData := "AAAA", mimeType := "image/jpeg", category := .TOP
  , description := "白T", tags := ["測試"], createdAt := 1 }

/-- An outfit item whose back-reference resolves to nothing. -/
def ghostItem : OutfitItem :=
  { name := "shirt", color := "blue", type := "top", wardrobeItemId := some "ghost" }

/-- An array payload whose single recommendation object lacks the mandatory
`items` field (and every other required field except `title`). -/
def badPayload : Json := .arr [.obj [("title", .str "t")]]

/-! ## Claim theorems -/

/-- C4: for every AI recommendation response that is schema-conformant but an
empty sequence, `generateOutfitRecommendations` returns an empty batch
rather than failing. -/
theorem c4_empty_sequence_ok (prefs : UserPreferences) (k : String) (hk : k ≠ "")
    (clock : Nat → Nat) :
    specSchemaConformant (.arr []) = true
    ∧ generateOutfitRecommendations prefs (some k) clock
        (.reply (.value (.arr []))) = .ok [] := by
  have hkey : envKeyPresent (some k) = true := by simp [envKeyPresent, hk]
  exact ⟨rfl, by simp [generateOutfitRecommendations, hkey, buildBatch]⟩

theorem c4_empty_sequence_ok_witness :
    specSchemaConformant (.arr []) = true
    ∧ generateOutfitRecommendations cPrefs (some "key") (fun _ => 0)
        (.reply (.value (.arr []))) = .ok [] :=
  c4_empty_sequence_ok cPrefs "key" (by decide) (fun _ => 0)

/-- C5: any capability failure whose message is not `"API_KEY_MISSING"` makes
`analyzeWardrobeItem` return the degraded record (default category TOP,
placeholder description, empty tag set) instead of failing, while the
missing-credentials condition propagates unmodified. -/
theorem c5_degrade_on_failure (k : String) (hk : k ≠ "") (msg : String)
    (hmsg : msg ≠ "API_KEY_MISSING") :
    analyzeWardrobeItem (some k) (.fail msg) = .ok degradedRecord
    ∧ analyzeWardrobeItem (some k) (.fail "API_KEY_MISSING") =
        .error "API_KEY_MISSING" := by
  have hkey : envKeyPresent (some k) = true := by simp [envKeyPresent, hk]
  constructor
  · simp [analyzeWardrobeItem, hkey, hmsg]
  · simp [analyzeWardrobeItem, hkey]

theorem c5_degrade_on_failure_witness :
    analyzeWardrobeItem (some "key") (.fail "network error") = .ok degradedRecord
    ∧ analyzeWardrobeItem (some "key") (.fail "API_KEY_MISSING") =
        .error "API_KEY_MISSING" :=
  c5_degrade_on_failure "key" (by decide) "network error" (by decide)

/-- C6: on the success path, when `result.category` strictly equals none of
the `ClothingCategory` enum values, `analyzeWardrobeItem` substitutes the
default TOP in the returned record (whose category is by construction always
an enumeration member). -/
theorem c6_unmatched_category_top (k : String) (hk : k ≠ "") (j : Json)
    (hcat : ∀ c : ClothingCategory, jsStrEq (jsGet j "category") c.val = false) :
    analyzeWardrobeItem (some k) (.reply (.value j)) = .ok (analyzeSuccess j)
    ∧ (analyzeSuccess j).category = ClothingCategory.TOP := by
  have hkey : envKeyPresent (some k) = true := by simp [envKeyPresent, hk]
  constructor
  · simp [analyzeWardrobeItem, hkey, analyzeParse]
  · have hfind : allCategories.find? (fun c => jsStrEq (jsGet j "category") c.val)
        = none := by
      apply List.find?_eq_none.mpr
      intro c _
      simp [hcat c]
    simp [analyzeSuccess, hfind]

theorem c6_unmatched_category_top_witness :
    analyzeWardrobeItem (some "key")
        (.reply (.value (.obj [("category", .str "帽子")])))
      = .ok (analyzeSuccess (.obj [("category", .str "帽子")]))
    ∧ (analyzeSuccess (.obj [("category", .str "帽子")])).category
      = ClothingCategory.TOP :=
  c6_unmatched_category_top "key" (by decide) (.obj [("category", .str "帽子")])
    (by intro c; cases c <;> rfl)

/-- C7: `generateOutfitVisual` never propagates an error: its result is the
first-candidate image payload exactly when the capability call succeeded with
the credential present, and the explicit no-image result (`none`) in every
other situation — thrown capability errors, a missing credential, a reply
with no candidates, an empty candidate array (whose `candidates[0].content`
access raises a caught `TypeError`), or candidate parts without truthy
inline image data. -/
theorem c7_visual_never_throws (description : String) (context : UserPreferences)
    (referenceItems : List WardrobeItem) (apiKey : Option String)
    (resp : VisualCapResponse) :
    generateOutfitVisual description context referenceItems apiKey resp =
      match resp with
      | .fail _ => none
      | .reply cands =>
        if envKeyPresent apiKey then imageOfCandidates cands else none := by
  by_cases hkey : envKeyPresent apiKey = true
  · cases resp with
    | fail msg => simp [generateOutfitVisual, generateOutfitVisualBody, hkey]
    | reply cands =>
      cases cands with
      | none => simp [generateOutfitVisual, generateOutfitVisualBody,
          imageOfCandidates, hkey]
      | some l =>
        cases l with
        | nil => simp [generateOutfitVisual, generateOutfitVisualBody,
            imageOfCandidates, hkey]
        | cons c rest =>
          cases hparts : c.content.parts with
          | none => simp [generateOutfitVisual, generateOutfitVisualBody,
              imageOfCandidates, hkey, hparts]
          | some parts => simp [generateOutfitVisual, generateOutfitVisualBody,
              imageOfCandidates, hkey, hparts]
  · have hkey' : envKeyPresent apiKey = false := by
      cases h : envKeyPresent apiKey
      · rfl
      · exact absurd h hkey
    cases resp with
    | fail msg => simp [generateOutfitVisual, generateOutfitVisualBody, hkey']
    | reply cands => simp [generateOutfitVisual, generateOutfitVisualBody, hkey']

/-- C8: with `useWardrobe` false, or an absent or empty wardrobe snapshot,
the generation request `generateOutfitRecommendations` composes contains no
inventory text: its wardrobe-context section is the empty string, and the
prompt coincides with the canonical no-inventory prompt. -/
theorem c8_no_inventory_text (prefs : UserPreferences)
    (h : prefs.useWardrobe = false ∨ prefs.wardrobeItems = none
      ∨ prefs.wardrobeItems = some []) :
    wardrobeContext prefs = ""
    ∧ buildPrompt prefs =
        buildPrompt { prefs with useWardrobe := false, wardrobeItems := none } := by
  have hctx : wardrobeContext prefs = "" := by
    unfold wardrobeContext
    rcases h with h | h | h <;> simp [h]
  refine ⟨hctx, ?_⟩
  have hctx' : wardrobeContext
      { prefs with useWardrobe := false, wardrobeItems := none } = "" := by
    unfold wardrobeContext
    simp
  unfold buildPrompt
  rw [hctx, hctx']

theorem c8_no_inventory_text_witness :
    wardrobeContext scenarioPrefs = ""
    ∧ buildPrompt scenarioPrefs =
        buildPrompt { scenarioPrefs with useWardrobe := false, wardrobeItems := none } :=
  c8_no_inventory_text scenarioPrefs (Or.inl rfl)

/-- C10: `OutfitForm.handleSubmit` emits `useWardrobe = false` whenever the
wardrobe is empty (the `hasWardrobeItems` prop is `length > 0`), regardless
of the toggle; and `App.handleGetRecommendations` attaches the empty
snapshot, not the current wardrobe contents, whenever `useWardrobe` is
false. -/
theorem c10_empty_wardrobe_forces_generic (st : FormState)
    (wardrobe : List WardrobeItem) (prefs : UserPreferences)
    (currentItems : List WardrobeItem) (hw : wardrobe = [])
    (hp : prefs.useWardrobe = false) :
    (handleSubmit st (hasWardrobeItemsFlag wardrobe)).useWardrobe = false
    ∧ (attachWardrobeData prefs currentItems).wardrobeItems = some [] := by
  subst hw
  constructor
  · simp [handleSubmit, hasWardrobeItemsFlag]
  · simp [attachWardrobeData, hp]

theorem c10_empty_wardrobe_forces_generic_witness :
    (handleSubmit st0 (hasWardrobeItemsFlag [])).useWardrobe = false
    ∧ (attachWardrobeData cPrefs [sampleItem]).wardrobeItems = some [] :=
  c10_empty_wardrobe_forces_generic st0 [] cPrefs [sampleItem] rfl rfl

theorem buildBatch_id_mem (prefs : UserPreferences) (clock : Nat → Nat) :
    ∀ (xs : List Json) (i : Nat) (s : String),
      s ∈ (buildBatch prefs clock xs i).map RecResult.id →
      ∃ k, i ≤ k ∧ s = mkRecId (clock k) k := by
  intro xs
  induction xs with
  | nil => intro i s h; simp [buildBatch] at h
  | cons x xs ih =>
    intro i s h
    simp only [buildBatch, List.map_cons, List.mem_cons] at h
    rcases h with h | h
    · exact ⟨i, Nat.le_refl i, h⟩
    · obtain ⟨k, hk, hs⟩ := ih (i + 1) s h
      exact ⟨k, by omega, hs⟩

theorem buildBatch_ids_nodup (prefs : UserPreferences) (clock : Nat → Nat) :
    ∀ (xs : List Json) (i : Nat),
      ((buildBatch prefs clock xs i).map RecResult.id).Nodup := by
  intro xs
  induction xs with
  | nil => intro i; simp [buildBatch]
  | cons x xs ih =>
    intro i
    simp only [buildBatch, List.map_cons, List.nodup_cons]
    refine ⟨?_, ih (i + 1)⟩
    intro hmem
    obtain ⟨k, hk, hs⟩ := buildBatch_id_mem prefs clock xs (i + 1) _ hmem
    have : i = k := mkRecId_inj_idx hs
    omega

/-- C9: every batch a successful `generateOutfitRecommendations` call
returns carries pairwise-distinct ids of the form
`` `rec-${Date.now()}-${index}` `` — even if the per-element `Date.now()`
reads differ, the ordinal index keeps the ids distinct within the batch. -/
theorem c9_batch_ids_distinct (prefs : UserPreferences) (apiKey : Option String)
    (clock : Nat → Nat) (resp : CapResponse) (batch : List RecResult)
    (h : generateOutfitRecommendations prefs apiKey clock resp = .ok batch) :
    (batch.map RecResult.id).Nodup := by
  unfold generateOutfitRecommendations at h
  by_cases hkey : envKeyPresent apiKey = true
  · rw [if_pos hkey] at h
    cases resp with
    | fail msg => simp at h
    | reply t =>
      cases t with
      | missing => simp at h
      | unparseable => simp at h
      | value j =>
        cases j with
        | arr xs =>
          simp only [Except.ok.injEq] at h
          rw [← h]
          exact buildBatch_ids_nodup prefs clock xs 0
        | null => simp at h
        | bool b => simp at h
        | num n => simp at h
        | str s => simp at h
        | obj fields => simp at h
  · rw [if_neg hkey] at h
    simp at h

theorem c9_batch_ids_distinct_witness :
    ((buildBatch cPrefs (fun _ => 0) [Json.obj [], Json.obj []] 0).map
      RecResult.id).Nodup :=
  c9_batch_ids_distinct cPrefs (some "key") (fun _ => 0)
    (.reply (.value (.arr [Json.obj [], Json.obj []])))
    (buildBatch cPrefs (fun _ => 0) [Json.obj [], Json.obj []] 0) rfl

theorem buildBatch_length (prefs : UserPreferences) (clock : Nat → Nat) :
    ∀ (xs : List Json) (i : Nat), (buildBatch prefs clock xs i).length = xs.length := by
  intro xs
  induction xs with
  | nil => intro i; rfl
  | cons x xs ih => intro i; simp [buildBatch, ih (i + 1)]

/-- C1 counterexample: `badPayload` is an array whose single recommendation
object lacks the mandatory `items` field, so it is not schema-conformant;
yet `generateOutfitRecommendations` does not fail — it returns a non-empty
batch containing that malformed recommendation. -/
theorem c1_counterexample :
    specSchemaConformant badPayload = false
    ∧ generateOutfitRecommendations cPrefs (some "key") (fun _ => 0)
        (.reply (.value badPayload)) =
      .ok [{ raw := .obj [("title", .str "t")], id := mkRecId 0 0, context := cPrefs }] :=
  ⟨rfl, rfl⟩

/-- C1 (amended): `generateOutfitRecommendations` fails only on top-level
shape violations — missing/empty response text, unparseable text, or a
parse result that is not an array (`rawData.map` raises a `TypeError`);
whenever the parse result is an array, the call succeeds and returns one
batch element per array element, with no element-level schema validation. -/
theorem c1_amended_toplevel_validation (prefs : UserPreferences) (k : String)
    (hk : k ≠ "") (clock : Nat → Nat) (t : TextPayload) :
    ((∀ xs : List Json, t ≠ .value (.arr xs)) →
      (generateOutfitRecommendations prefs (some k) clock (.reply t)).isOk = false)
    ∧ (∀ xs : List Json, t = .value (.arr xs) →
      generateOutfitRecommendations prefs (some k) clock (.reply t)
        = .ok (buildBatch prefs clock xs 0)
      ∧ (buildBatch prefs clock xs 0).length = xs.length) := by
  have hkey : envKeyPresent (some k) = true := by simp [envKeyPresent, hk]
  constructor
  · intro hnot
    unfold generateOutfitRecommendations
    rw [if_pos hkey]
    cases t with
    | missing => rfl
    | unparseable => rfl
    | value j =>
      cases j with
      | arr xs => exact absurd rfl (hnot xs)
      | null => rfl
      | bool b => rfl
      | num n => rfl
      | str s => rfl
      | obj fields => rfl
  · intro xs ht
    subst ht
    refine ⟨?_, buildBatch_length prefs clock xs 0⟩
    unfold generateOutfitRecommendations
    rw [if_pos hkey]

theorem c1_amended_toplevel_validation_witness :
    (generateOutfitRecommendations cPrefs (some "key") (fun _ => 0)
      (.reply (.value (.str "oops")))).isOk = false
    ∧ (generateOutfitRecommendations cPrefs (some "key") (fun _ => 0)
        (.reply (.value (.arr [Json.obj []])))
      = .ok (buildBatch cPrefs (fun _ => 0) [Json.obj []] 0)
      ∧ (buildBatch cPrefs (fun _ => 0) [Json.obj []] 0).length
        = ([Json.obj []] : List Json).length) :=
  ⟨(c1_amended_toplevel_validation cPrefs "key" (by decide) (fun _ => 0)
      (.value (.str "oops"))).1 (fun xs h => by simp at h),
   (c1_amended_toplevel_validation cPrefs "key" (by decide) (fun _ => 0)
      (.value (.arr [Json.obj []]))).2 [Json.obj []] rfl⟩

/-- A part carrying truthy inline image data. -/
def imgPart : JPart :=
  { inlineData := some { data := some "QUJD", mimeType := some "image/png" } }

/-- A capability reply that carries an image in its first candidate. -/
def imgReply : VisualCapResponse :=
  .reply (some [{ content := { parts := some [imgPart] } }])

/-- C2 counterexample: with the credential token absent,
`generateOutfitVisual` does not surface `API_KEY_MISSING`: it returns the
ordinary no-image result (`null`), indistinguishable from a keyed call whose
reply simply contains no image — even when the reply carries an image. -/
theorem c2_counterexample :
    generateOutfitVisual "outfit" cPrefs [] none imgReply = none
    ∧ generateOutfitVisual "outfit" cPrefs [] (some "key") (.reply none) = none :=
  ⟨rfl, rfl⟩

/-- C2 (amended): with the credential token absent (or empty), `analyze` and
`recommend` surface `API_KEY_MISSING` before consuming any capability
response, while `synthesize` swallows the condition and returns the no-image
result regardless of the response. -/
theorem c2_amended_missing_key (key : Option String)
    (hk : envKeyPresent key = false) :
    (∀ resp : CapResponse, analyzeWardrobeItem key resp = .error "API_KEY_MISSING")
    ∧ (∀ (prefs : UserPreferences) (clock : Nat → Nat) (resp : CapResponse),
        generateOutfitRecommendations prefs key clock resp = .error "API_KEY_MISSING")
    ∧ (∀ (d : String) (ctx : UserPreferences) (refs : List WardrobeItem)
        (vresp : VisualCapResponse),
        generateOutfitVisual d ctx refs key vresp = none) := by
  refine ⟨?_, ?_, ?_⟩
  · intro resp
    simp [analyzeWardrobeItem, hk]
  · intro prefs clock resp
    simp [generateOutfitRecommendations, hk]
  · intro d ctx refs vresp
    simp [generateOutfitVisual, generateOutfitVisualBody, hk]

theorem c2_amended_missing_key_witness :
    analyzeWardrobeItem none (.reply .missing) = .error "API_KEY_MISSING"
    ∧ generateOutfitRecommendations cPrefs none (fun _ => 0) (.reply .missing)
      = .error "API_KEY_MISSING"
    ∧ generateOutfitVisual "d" cPrefs [] none (.reply none) = none :=
  ⟨(c2_amended_missing_key none rfl).1 (.reply .missing),
   (c2_amended_missing_key none rfl).2.1 cPrefs (fun _ => 0) (.reply .missing),
   (c2_amended_missing_key none rfl).2.2 "d" cPrefs [] (.reply none)⟩

/-- C3 counterexample: an outfit item whose back-reference (`"ghost"`)
matches nothing in the (empty) wardrobe snapshot is excluded from the
reference items selected for visual synthesis, yet the displayed owned
count still counts it as owned (1, not 0) — the owned-count half of the
claim fails on the code. -/
theorem c3_counterexample :
    usedWardrobeItems [ghostItem] [] = [] ∧ ownedCount [ghostItem] = 1 :=
  ⟨rfl, rfl⟩

/-- C3 (amended): an outfit item whose (non-empty) back-reference matches no
wardrobe item in the snapshot is excluded from the reference items passed to
visual synthesis — adding such an item to the recommendation leaves the
selected reference items unchanged — but the displayed owned count still
counts it, resolvable or not. -/
theorem c3_amended_owned_semantics (items : List OutfitItem)
    (allItems : List WardrobeItem) (it : OutfitItem)
    (h : truthyId it.wardrobeItemId = true)
    (hmatch : ∀ w ∈ allItems, wardrobeMatch it w = false) :
    usedWardrobeItems (it :: items) allItems = usedWardrobeItems items allItems
    ∧ ownedCount (it :: items) = ownedCount items + 1 := by
  constructor
  · have hfind : allItems.find? (wardrobeMatch it) = none := by
      apply List.find?_eq_none.mpr
      intro w hw
      simp [hmatch w hw]
    simp [usedWardrobeItems, List.map_cons, List.filterMap_cons, hfind]
  · simp [ownedCount, List.filter_cons, h]

theorem c3_amended_owned_semantics_witness :
    usedWardrobeItems (ghostItem :: []) [sampleItem]
      = usedWardrobeItems [] [sampleItem]
    ∧ ownedCount (ghostItem :: []) = ownedCount [] + 1 :=
  c3_amended_owned_semantics [] [sampleItem] ghostItem rfl (by decide)

end StyleSync
